import Mathlib

/-!
Verification of the Department record mapper (`lib/department.py`).

The mapper issues parameterized SQL statements against a single SQLite
connection.  We embed the store shallowly: the `departments` table is an
`Option (List Row)` (`none` when the table has been dropped or never
created), and each mapper method becomes a function from the instance and
the database state to the updated instance and state, returning
`Except String _` because SQLite errors (such as "no such table")
propagate to the caller unhandled.

SQLite specifics embedded faithfully:
  * `INSERT` appends a row and assigns it a rowid one larger than the
    largest rowid currently in the table (1 when the table is empty);
    `CURSOR.lastrowid` right after the insert is exactly that rowid.
  * `WHERE id = ?` with a NULL parameter matches no row.
  * `CREATE TABLE IF NOT EXISTS` / `DROP TABLE IF EXISTS` never fail.
-/

/-- A row of the `departments` table: columns `id`, `name`, `location`. -/
structure Row where
  id : Nat
  name : String
  location : String
deriving Repr, DecidableEq

/-- The store state: the `departments` table, or `none` when it is absent. -/
structure Database where
  departments : Option (List Row)
deriving Repr, DecidableEq

/-- In-memory `Department` object: `id` is `none` before first persist
(`__init__` defaults `id=None`). -/
structure Department where
  id : Option Nat
  name : String
  location : String
deriving Repr, DecidableEq

/-- Semantics of `WHERE id = ?` for a row with rowid `rowId` and bound
parameter `param` (the instance attribute, possibly NULL): a NULL
parameter matches no row. -/
def sqlIdMatches (rowId : Nat) (param : Option Nat) : Bool :=
  match param with
  | none => false
  | some i => rowId == i

/-- The rowid SQLite assigns to a freshly inserted row of `rows`:
one larger than the largest existing rowid, 1 on an empty table. -/
def nextId (rows : List Row) : Nat :=
  rows.foldr (fun r m => max r.id m) 0 + 1

namespace Department

/-- `Department.__init__(name, location)` with the default `id=None`. -/
def init (name location : String) : Department :=
  ⟨none, name, location⟩

/-- `Department.create_table()`: `CREATE TABLE IF NOT EXISTS departments`,
a no-op when the table already exists. -/
def create_table (db : Database) : Database :=
  match db.departments with
  | none => ⟨some []⟩
  | some rows => ⟨some rows⟩

/-- `Department.drop_table()`: `DROP TABLE IF EXISTS departments`. -/
def drop_table (_db : Database) : Database :=
  ⟨none⟩

/-- `Department.save()`: `INSERT INTO departments (name, location)
VALUES (?, ?)` followed by `self.id = CURSOR.lastrowid`.  The insert
fails when the table is absent, in which case the exception propagates
before `self.id` is assigned, so no updated instance is produced. -/
def save (d : Department) (db : Database) : Except String (Department × Database) :=
  match db.departments with
  | none => .error "no such table: departments"
  | some rows =>
      let newId := nextId rows
      .ok (⟨some newId, d.name, d.location⟩,
           ⟨some (rows ++ [⟨newId, d.name, d.location⟩])⟩)

/-- `Department.create(name, location)`: construct a new instance and
immediately `save()` it. -/
def create (name location : String) (db : Database) :
    Except String (Department × Database) :=
  (init name location).save db

/-- `Department.update()`: `UPDATE departments SET name = ?, location = ?
WHERE id = ?`.  Every row whose rowid matches the bound `self.id` gets the
instance's current `name`/`location`; `self` is not mutated. -/
def update (d : Department) (db : Database) : Except String (Department × Database) :=
  match db.departments with
  | none => .error "no such table: departments"
  | some rows =>
      .ok (d, ⟨some (rows.map (fun r =>
        if sqlIdMatches r.id d.id then ⟨r.id, d.name, d.location⟩ else r))⟩)

/-- `Department.delete()`: `DELETE FROM departments WHERE id = ?`.
Rows whose rowid matches the bound `self.id` are removed; `self` keeps
its `id`, `name`, `location`. -/
def delete (d : Department) (db : Database) : Except String (Department × Database) :=
  match db.departments with
  | none => .error "no such table: departments"
  | some rows =>
      .ok (d, ⟨some (rows.filter (fun r => ! sqlIdMatches r.id d.id))⟩)

end Department

/-- After `create_table` the table is present. -/
theorem create_table_departments_isSome (db : Database) :
    ∃ rows, (Department.create_table db).departments = some rows := by
  cases h : db.departments with
  | none => exact ⟨[], by simp [Department.create_table, h]⟩
  | some rows => exact ⟨rows, by simp [Department.create_table, h]⟩

/-- The fold underlying `nextId` is at least its base value. -/
theorem foldr_max_le (rows : List Row) (b : Nat) :
    b ≤ rows.foldr (fun r m => max r.id m) b := by
  induction rows with
  | nil => exact Nat.le_refl b
  | cons r rs ih => exact Nat.le_trans ih (Nat.le_max_right _ _)

/-- C8: In every store state, `drop_table()` succeeds, afterwards the
`departments` table is absent, and a second call leaves the state
unchanged (idempotence). -/
theorem drop_table_removes_and_idempotent (db : Database) :
    (Department.drop_table db).departments = none ∧
    Department.drop_table (Department.drop_table db) = Department.drop_table db := by
  exact ⟨rfl, rfl⟩

/-- C1: From any store state, `create_table()` followed by
`create(name, location)` succeeds and returns an instance whose `id` is
non-null, and the table holds a row whose `id` equals the instance's `id`
and whose `name`/`location` columns equal the given arguments. -/
theorem create_after_create_table (db : Database) (name location : String) :
    ∃ d db' rows i,
      Department.create name location (Department.create_table db) = .ok (d, db') ∧
      d.id ≠ none ∧ d.id = some i ∧
      db'.departments = some rows ∧ (⟨i, name, location⟩ : Row) ∈ rows := by
  obtain ⟨rows0, h0⟩ := create_table_departments_isSome db
  refine ⟨⟨some (nextId rows0), name, location⟩,
    ⟨some (rows0 ++ [⟨nextId rows0, name, location⟩])⟩,
    rows0 ++ [⟨nextId rows0, name, location⟩], nextId rows0, ?_, ?_, rfl, rfl, ?_⟩
  · simp [Department.create, Department.init, Department.save, h0]
  · simp
  · simp

/-- C5: `save()` on an already-persisted instance (id assigned, its row
present) does not fail: it inserts one additional row carrying the
instance's current `name`/`location`, leaving the table one row longer. -/
theorem save_on_persisted_duplicates (rows : List Row) (d : Department) (i : Nat)
    (_hid : d.id = some i) (_hrow : ∃ r ∈ rows, r.id = i) :
    ∃ d' rows', Department.save d ⟨some rows⟩ = .ok (d', ⟨some rows'⟩) ∧
      rows'.length = rows.length + 1 ∧
      ∃ j, (⟨j, d.name, d.location⟩ : Row) ∈ rows' := by
  refine ⟨⟨some (nextId rows), d.name, d.location⟩,
    rows ++ [⟨nextId rows, d.name, d.location⟩], ?_, ?_, nextId rows, ?_⟩
  · simp [Department.save]
  · simp
  · simp

/-- Witness for C5: a second `save()` on the first created instance. -/
theorem save_on_persisted_duplicates_witness :
    (⟨some 1, "Payroll", "Building A"⟩ : Department).id = some 1 ∧
    (∃ r ∈ [(⟨1, "Payroll", "Building A"⟩ : Row)], r.id = 1) ∧
    (∃ d' rows',
      Department.save ⟨some 1, "Payroll", "Building A"⟩
          ⟨some [⟨1, "Payroll", "Building A"⟩]⟩ = .ok (d', ⟨some rows'⟩) ∧
      rows'.length = [(⟨1, "Payroll", "Building A"⟩ : Row)].length + 1 ∧
      ∃ j, (⟨j, "Payroll", "Building A"⟩ : Row) ∈ rows') :=
  ⟨rfl, ⟨⟨1, "Payroll", "Building A"⟩, by decide, rfl⟩,
    save_on_persisted_duplicates [⟨1, "Payroll", "Building A"⟩]
      ⟨some 1, "Payroll", "Building A"⟩ 1 rfl
      ⟨⟨1, "Payroll", "Building A"⟩, by decide, rfl⟩⟩

/-- C6: Two sequential `create()` calls against an existing table both
succeed and the second instance receives a strictly greater `id`. -/
theorem sequential_create_ids_increase (rows : List Row) (n1 l1 n2 l2 : String) :
    ∃ d1 db1 d2 db2 i1 i2,
      Department.create n1 l1 ⟨some rows⟩ = .ok (d1, db1) ∧
      Department.create n2 l2 db1 = .ok (d2, db2) ∧
      d1.id = some i1 ∧ d2.id = some i2 ∧ i1 < i2 := by
  refine ⟨⟨some (nextId rows), n1, l1⟩,
    ⟨some (rows ++ [⟨nextId rows, n1, l1⟩])⟩,
    ⟨some (nextId (rows ++ [⟨nextId rows, n1, l1⟩])), n2, l2⟩,
    ⟨some ((rows ++ [⟨nextId rows, n1, l1⟩]) ++
      [⟨nextId (rows ++ [⟨nextId rows, n1, l1⟩]), n2, l2⟩])⟩,
    nextId rows, nextId (rows ++ [⟨nextId rows, n1, l1⟩]),
    ?_, ?_, rfl, rfl, ?_⟩
  · simp [Department.create, Department.init, Department.save]
  · simp [Department.create, Department.init, Department.save]
  · have h1 : nextId rows ≤
        List.foldr (fun (r : Row) m => max r.id m) 0 [(⟨nextId rows, n1, l1⟩ : Row)] := by
      simp
    have h2 := foldr_max_le rows
      (List.foldr (fun (r : Row) m => max r.id m) 0 [(⟨nextId rows, n1, l1⟩ : Row)])
    have hfold : nextId rows ≤
        (rows ++ [(⟨nextId rows, n1, l1⟩ : Row)]).foldr (fun r m => max r.id m) 0 := by
      rw [List.foldr_append]
      exact Nat.le_trans h1 h2
    exact Nat.lt_succ_of_le hfold

/-- The WHERE clause rejects a row whenever the bound parameter differs
from the row's id (in particular whenever the parameter is NULL). -/
theorem sqlIdMatches_eq_false (rid : Nat) (x : Option Nat) (h : some rid ≠ x) :
    sqlIdMatches rid x = false := by
  cases x with
  | none => rfl
  | some i =>
      have hne : rid ≠ i := fun he => h (by rw [he])
      simp [sqlIdMatches, hne]

/-- The UPDATE row transformer leaves every non-matching table unchanged. -/
theorem update_map_noop (rows : List Row) (d : Department)
    (habs : ∀ r ∈ rows, sqlIdMatches r.id d.id = false) :
    rows.map (fun r =>
      if sqlIdMatches r.id d.id then ⟨r.id, d.name, d.location⟩ else r) = rows := by
  induction rows with
  | nil => rfl
  | cons r rs ih =>
      have h1 : sqlIdMatches r.id d.id = false := habs r (List.mem_cons_self r rs)
      have h2 := ih (fun x hx => habs x (List.mem_cons_of_mem r hx))
      simp [h1, h2]

/-- The DELETE row filter keeps every non-matching table unchanged. -/
theorem delete_filter_noop (rows : List Row) (d : Department)
    (habs : ∀ r ∈ rows, sqlIdMatches r.id d.id = false) :
    rows.filter (fun r => ! sqlIdMatches r.id d.id) = rows := by
  induction rows with
  | nil => rfl
  | cons r rs ih =>
      have h1 : sqlIdMatches r.id d.id = false := habs r (List.mem_cons_self r rs)
      have h2 := ih (fun x hx => habs x (List.mem_cons_of_mem r hx))
      rw [List.filter_cons, h1]
      simp [h2]

/-- C3: `update()` on a persisted instance rewrites exactly the rows whose
id matches the instance's id to its current `name`/`location`, leaves every
row with a different id byte-for-byte unchanged (same position, same
values), and does not mutate the instance. -/
theorem update_frame (rows : List Row) (d : Department) (i : Nat)
    (hid : d.id = some i) :
    ∃ rows', Department.update d ⟨some rows⟩ = .ok (d, ⟨some rows'⟩) ∧
      rows'.length = rows.length ∧
      ∀ (j : Nat) (hj : j < rows.length) (hj' : j < rows'.length),
        ((rows.get ⟨j, hj⟩).id = i →
          rows'.get ⟨j, hj'⟩ = ⟨i, d.name, d.location⟩) ∧
        ((rows.get ⟨j, hj⟩).id ≠ i →
          rows'.get ⟨j, hj'⟩ = rows.get ⟨j, hj⟩) := by
  refine ⟨rows.map (fun r =>
      if sqlIdMatches r.id d.id then ⟨r.id, d.name, d.location⟩ else r),
    by simp [Department.update], by simp, ?_⟩
  intro j hj hj'
  constructor
  · intro hmatch
    simp only [List.get_eq_getElem] at hmatch
    simp only [List.get_eq_getElem, List.getElem_map, sqlIdMatches, hid]
    rw [hmatch]
    simp
  · intro hne
    simp only [List.get_eq_getElem] at hne
    simp only [List.get_eq_getElem, List.getElem_map, sqlIdMatches, hid]
    simp [hne]

/-- Witness for C3 on a two-row table, updating the second row. -/
theorem update_frame_witness :
    (⟨some 2, "Sales", "B4"⟩ : Department).id = some 2 ∧
    (∃ rows', Department.update ⟨some 2, "Sales", "B4"⟩
        ⟨some [⟨1, "HR", "C"⟩, ⟨2, "Marketing", "B3"⟩]⟩ =
        .ok (⟨some 2, "Sales", "B4"⟩, ⟨some rows'⟩) ∧
      rows'.length = [(⟨1, "HR", "C"⟩ : Row), ⟨2, "Marketing", "B3"⟩].length ∧
      ∀ (j : Nat) (hj : j < [(⟨1, "HR", "C"⟩ : Row), ⟨2, "Marketing", "B3"⟩].length)
        (hj' : j < rows'.length),
        (([(⟨1, "HR", "C"⟩ : Row), ⟨2, "Marketing", "B3"⟩].get ⟨j, hj⟩).id = 2 →
          rows'.get ⟨j, hj'⟩ = ⟨2, "Sales", "B4"⟩) ∧
        (([(⟨1, "HR", "C"⟩ : Row), ⟨2, "Marketing", "B3"⟩].get ⟨j, hj⟩).id ≠ 2 →
          rows'.get ⟨j, hj'⟩ = [(⟨1, "HR", "C"⟩ : Row), ⟨2, "Marketing", "B3"⟩].get ⟨j, hj⟩)) :=
  ⟨rfl, update_frame [⟨1, "HR", "C"⟩, ⟨2, "Marketing", "B3"⟩] ⟨some 2, "Sales", "B4"⟩ 2 rfl⟩

/-- C4: `delete()` on a persisted instance removes every row whose id
matches the instance's id, keeps every row with a different id, and leaves
the in-memory instance (its `id`, `name`, `location`) untouched. -/
theorem delete_frame (rows : List Row) (d : Department) (i : Nat)
    (hid : d.id = some i) :
    ∃ rows', Department.delete d ⟨some rows⟩ = .ok (d, ⟨some rows'⟩) ∧
      (∀ r ∈ rows', r.id ≠ i) ∧
      (∀ r ∈ rows, r.id ≠ i → r ∈ rows') ∧
      (∀ r ∈ rows', r ∈ rows) := by
  refine ⟨rows.filter (fun r => ! sqlIdMatches r.id d.id),
    by simp [Department.delete], ?_, ?_, ?_⟩
  · intro r hr
    have h2 := (List.mem_filter.mp hr).2
    simp only [sqlIdMatches, hid, Bool.not_eq_eq_eq_not, Bool.not_true] at h2
    intro he
    rw [he] at h2
    simp at h2
  · intro r hr hne
    refine List.mem_filter.mpr ⟨hr, ?_⟩
    simp [sqlIdMatches, hid, hne]
  · intro r hr
    exact (List.mem_filter.mp hr).1

/-- Witness for C4 on a two-row table, deleting the second row. -/
theorem delete_frame_witness :
    (⟨some 2, "Marketing", "B3"⟩ : Department).id = some 2 ∧
    (∃ rows', Department.delete ⟨some 2, "Marketing", "B3"⟩
        ⟨some [⟨1, "HR", "C"⟩, ⟨2, "Marketing", "B3"⟩]⟩ =
        .ok (⟨some 2, "Marketing", "B3"⟩, ⟨some rows'⟩) ∧
      (∀ r ∈ rows', r.id ≠ 2) ∧
      (∀ r ∈ [(⟨1, "HR", "C"⟩ : Row), ⟨2, "Marketing", "B3"⟩], r.id ≠ 2 → r ∈ rows') ∧
      (∀ r ∈ rows', r ∈ [(⟨1, "HR", "C"⟩ : Row), ⟨2, "Marketing", "B3"⟩])) :=
  ⟨rfl, delete_frame [⟨1, "HR", "C"⟩, ⟨2, "Marketing", "B3"⟩]
    ⟨some 2, "Marketing", "B3"⟩ 2 rfl⟩

/-- C7: `update()` on an instance whose id matches no existing row (for
example a row already deleted) affects zero rows and raises no error: the
call returns successfully with the table unchanged. -/
theorem update_nonexistent_noop (rows : List Row) (d : Department)
    (habs : ∀ r ∈ rows, some r.id ≠ d.id) :
    Department.update d ⟨some rows⟩ = .ok (d, ⟨some rows⟩) := by
  simp only [Department.update]
  rw [update_map_noop rows d (fun r hr => sqlIdMatches_eq_false r.id d.id (habs r hr))]

/-- Witness for C7: updating an instance whose row was deleted. -/
theorem update_nonexistent_noop_witness :
    (∀ r ∈ [(⟨1, "HR", "C"⟩ : Row), ⟨3, "Payroll", "A"⟩],
      some r.id ≠ (⟨some 2, "Marketing", "B3"⟩ : Department).id) ∧
    Department.update ⟨some 2, "Marketing", "B3"⟩
        ⟨some [⟨1, "HR", "C"⟩, ⟨3, "Payroll", "A"⟩]⟩ =
      .ok (⟨some 2, "Marketing", "B3"⟩, ⟨some [⟨1, "HR", "C"⟩, ⟨3, "Payroll", "A"⟩]⟩) :=
  ⟨by decide, update_nonexistent_noop [⟨1, "HR", "C"⟩, ⟨3, "Payroll", "A"⟩]
    ⟨some 2, "Marketing", "B3"⟩ (by decide)⟩

/-- C10: On an instance never persisted (`id = None`), `update()` and
`delete()` after `create_table()` leave every row unchanged and do not
raise: the `WHERE id = ?` clause bound to NULL matches no row. -/
theorem none_id_update_delete_noop (db : Database) (d : Department)
    (hid : d.id = none) :
    Department.update d (Department.create_table db) =
      .ok (d, Department.create_table db) ∧
    Department.delete d (Department.create_table db) =
      .ok (d, Department.create_table db) := by
  obtain ⟨rows0, h0⟩ := create_table_departments_isSome db
  have hdb : Department.create_table db = ⟨some rows0⟩ := by
    rw [← h0]
  rw [hdb]
  have habs : ∀ r ∈ rows0, sqlIdMatches r.id d.id = false :=
    fun r _hr => sqlIdMatches_eq_false r.id d.id (by rw [hid]; exact Option.some_ne_none _)
  constructor
  · simp only [Department.update]
    rw [update_map_noop rows0 d habs]
  · simp only [Department.delete]
    rw [delete_filter_noop rows0 d habs]

/-- Witness for C10 starting from an empty store. -/
theorem none_id_update_delete_noop_witness :
    (⟨none, "Payroll", "Building A"⟩ : Department).id = none ∧
    (Department.update ⟨none, "Payroll", "Building A"⟩
        (Department.create_table ⟨none⟩) =
      .ok (⟨none, "Payroll", "Building A"⟩, Department.create_table ⟨none⟩) ∧
    Department.delete ⟨none, "Payroll", "Building A"⟩
        (Department.create_table ⟨none⟩) =
      .ok (⟨none, "Payroll", "Building A"⟩, Department.create_table ⟨none⟩)) :=
  ⟨rfl, none_id_update_delete_noop ⟨none⟩ ⟨none, "Payroll", "Building A"⟩ rfl⟩

/-- C2 fails as stated: `save()` is among the listed subsequent operations,
yet a second `save()` on an already-persisted instance reassigns its id to
the id of the freshly inserted duplicate row.  Concretely, `create` on an
empty table assigns id 1, and the next `save()` on that instance
reassigns id 2. -/
theorem second_save_changes_id :
    Department.create "Payroll" "Building A" (Department.create_table ⟨none⟩) =
      .ok (⟨some 1, "Payroll", "Building A"⟩, ⟨some [⟨1, "Payroll", "Building A"⟩]⟩) ∧
    Department.save ⟨some 1, "Payroll", "Building A"⟩
        ⟨some [⟨1, "Payroll", "Building A"⟩]⟩ =
      .ok (⟨some 2, "Payroll", "Building A"⟩,
        ⟨some [⟨1, "Payroll", "Building A"⟩, ⟨2, "Payroll", "Building A"⟩]⟩) ∧
    (some 2 : Option Nat) ≠ some 1 :=
  ⟨rfl, rfl, by decide⟩

/-- C2 (amended): once the id is assigned, `update()` and `delete()` on
the instance never change it (and operations on other instances cannot
touch it); only a further `save()` on the same instance reassigns it. -/
theorem id_stable_under_update_delete (d d1 d2 : Department)
    (db1 db2 db1' db2' : Database) (i : Nat)
    (hid : d.id = some i)
    (hu : Department.update d db1 = .ok (d1, db1'))
    (hd : Department.delete d db2 = .ok (d2, db2')) :
    d1.id = some i ∧ d2.id = some i := by
  constructor
  · cases hdb : db1.departments with
    | none =>
        rw [Department.update, hdb] at hu
        exact absurd hu (by simp)
    | some rows =>
        rw [Department.update, hdb] at hu
        simp only [Except.ok.injEq, Prod.mk.injEq] at hu
        rw [← hu.1, hid]
  · cases hdb : db2.departments with
    | none =>
        rw [Department.delete, hdb] at hd
        exact absurd hd (by simp)
    | some rows =>
        rw [Department.delete, hdb] at hd
        simp only [Except.ok.injEq, Prod.mk.injEq] at hd
        rw [← hd.1, hid]

/-- Witness for the amended C2 on a concrete persisted instance. -/
theorem id_stable_under_update_delete_witness :
    (⟨some 1, "HR", "C"⟩ : Department).id = some 1 ∧
    Department.update ⟨some 1, "HR", "C"⟩ (⟨some []⟩ : Database) =
      .ok (⟨some 1, "HR", "C"⟩, (⟨some []⟩ : Database)) ∧
    Department.delete ⟨some 1, "HR", "C"⟩ (⟨some []⟩ : Database) =
      .ok (⟨some 1, "HR", "C"⟩, (⟨some []⟩ : Database)) ∧
    ((⟨some 1, "HR", "C"⟩ : Department).id = some 1 ∧
     (⟨some 1, "HR", "C"⟩ : Department).id = some 1) :=
  ⟨rfl, rfl, rfl,
    id_stable_under_update_delete ⟨some 1, "HR", "C"⟩ ⟨some 1, "HR", "C"⟩
      ⟨some 1, "HR", "C"⟩ ⟨some []⟩ ⟨some []⟩ ⟨some []⟩ ⟨some []⟩ 1 rfl rfl rfl⟩

/-- C9: `save()` on a state without the `departments` table surfaces the
store error unhandled; no updated instance is produced, so the caller's
`id` attribute is never assigned. -/
theorem save_without_table_errors (d : Department) (db : Database)
    (h : db.departments = none) :
    Department.save d db = .error "no such table: departments" ∧
    ∀ d' db', Department.save d db ≠ .ok (d', db') := by
  have hs : Department.save d db = .error "no such table: departments" := by
    simp [Department.save, h]
  exact ⟨hs, fun d' db' hc => by rw [hs] at hc; exact Except.noConfusion hc⟩

/-- Witness for C9 at a concrete dropped-table state. -/
theorem save_without_table_errors_witness :
    (Database.mk none).departments = none ∧
    (Department.save ⟨none, "Payroll", "Building A"⟩ ⟨none⟩ =
      .error "no such table: departments" ∧
    ∀ d' db', Department.save ⟨none, "Payroll", "Building A"⟩ ⟨none⟩ ≠ .ok (d', db')) :=
  ⟨rfl, save_without_table_errors ⟨none, "Payroll", "Building A"⟩ ⟨none⟩ rfl⟩
